import Mathlib

/-!
# Verification of the annotation job pipeline

Shallow embedding of the core orchestration code of the benchmarking
platform (`src/server/controllers/jobOperations.ts`, the models under
`src/server/models/`, and the configuration
`SequenceConfigs.jobStatusSteps`).

The scheduler `JobOperations.processJobs` is embedded as a deterministic
function from a store state (`PState`) and an oracle describing the
outcomes of the external `exec` calls and the parsed output files
(`World`) to a new store state.  Mongoose documents become Lean
structures; `findOne`/`findOneAndUpdate` become list operations with the
same filter semantics (the update replaces the first document matching
the filter, regardless of any field not in the filter); the filesystem
effects (mkdtemp, appendFile) become fields of the state.  `exec`
callbacks are asynchronous in the source, but their bodies run in
sequence; the embedding records their combined eventual effect.
-/

namespace JobPipeline

/-- A `Job` document (src/server/models/job.ts): `target`, `tool` and
`germline` are ObjectId references, `status` a string validated against
the enum `SequenceConfigs.jobStatusSteps`. -/
structure JobRec where
  id : Nat
  target : Nat
  tool : Nat
  germline : Nat
  status : String
deriving Repr, DecidableEq

/-- A `Sequence` document (src/server/models/sequence.ts) as the
pipeline reads it: its identifier `seqId`, its raw `content`, and the
`datasetId` it belongs to. -/
structure SequenceRec where
  seqId : String
  content : String
  datasetId : Nat
deriving Repr, DecidableEq

/-- One data row as parsed by `dl.tsv`: each expected column is either
present with a string value or absent (`undefined` in JS, `none` here),
e.g. when the file lacks that column or the row lacks the field. -/
structure Row where
  sequence_id : Option String
  locus : Option String
  v_call : Option String
  d_call : Option String
  j_call : Option String
  productive : Option String
  cdr3_aa : Option String
deriving Repr, DecidableEq

/-- A `SequenceAnnotation` document (`sequencesAnnotationSchema`): all
payload fields are optional `String`s in the mongoose schema (none is
marked `required`), so an absent field is stored as absent. -/
structure AnnotationRec where
  jobId : Nat
  seqId : Option String
  locus : Option String
  v_call : Option String
  d_call : Option String
  j_call : Option String
  productive : Option String
  cdr3aa : Option String
deriving Repr, DecidableEq

/-- One file found directly under the output directory, with the rows
`dl.tsv` parses out of it. -/
structure OutFile where
  name : String
  rows : List Row
deriving Repr, DecidableEq

/-- The `docker run` invocation of jobOperations.ts lines 69–73,
structurally: the three bind mounts, the image tag (the tool's id) and
the positional arguments of the container entry command
(`' start human ig'` — entry `start`, species `human`, receptor `ig`). -/
structure RunInvocation where
  inputMount : String
  outputMount : String
  germlineMount : String
  image : Nat
  args : List String
deriving Repr, DecidableEq

/-- The enum `SequenceConfigs.jobStatusSteps` (src/client/app/app.module.ts /
server/configurations/sequence): the enum validating `jobSchema.status`. -/
def jobStatusSteps : List String := ["SUBMITTED", "ERROR", "IN PROGRESS", "DONE"]

/-- Embeds `Model.findOne(filter)`: the first document matching the filter, in
store iteration order. -/
def findOne (p : JobRec → Bool) (jobs : List JobRec) : Option JobRec :=
  jobs.find? p

/-- Replace the first document matching the filter by `upd`; documents
not matching the filter, and matches after the first, are untouched. -/
def replaceFirst (p : JobRec → Bool) (upd : JobRec) : List JobRec → List JobRec
  | [] => []
  | j :: rest => if p j then upd :: rest else j :: replaceFirst p upd rest

/-- Embeds `Model.findOneAndUpdate(filter, upd)`: if some document matches the
filter, replace the first such document and return it (mongoose returns
the matched document); otherwise return `none` and leave the store
unchanged.  The update succeeds or fails on the filter alone. -/
def findOneAndUpdate (p : JobRec → Bool) (upd : JobRec) (jobs : List JobRec) :
    Option JobRec × List JobRec :=
  match jobs.find? p with
  | none => (none, jobs)
  | some j => (some j, replaceFirst p upd jobs)

/-- The FASTA export loop (jobOperations.ts lines 46–49): for each
sequence of the dataset, append a header line `'>' + seqId` and then a
content line holding the raw content, in iteration order. -/
def fastaLines (seqs : List SequenceRec) : List String :=
  seqs.flatMap (fun s => [">" ++ s.seqId, s.content])

/-- One `new SequenceAnnotation({...})` of the ingestion loop
(jobOperations.ts lines 99–108): the column mapping from a parsed row to
an annotation document bound to the job's id. -/
def mkAnnotationRec (jobId : Nat) (d : Row) : AnnotationRec :=
  { jobId := jobId
    seqId := d.sequence_id
    locus := d.locus
    v_call := d.v_call
    d_call := d.d_call
    j_call := d.j_call
    productive := d.productive
    cdr3aa := d.cdr3_aa }

/-- The ingestion loop (jobOperations.ts lines 93–111): for every file
directly under the output directory and every row parsed from it, save
one annotation document. -/
def ingestFiles (jobId : Nat) (files : List OutFile) : List AnnotationRec :=
  files.flatMap (fun f => f.rows.map (mkAnnotationRec jobId))

/-- The `docker run` command string of jobOperations.ts lines 69–73,
character for character. -/
def dockerRunCmd (inputsDir outputsDir germliDir toolTag : String) : String :=
  "docker run " ++
    "-v " ++ inputsDir ++ ":/INPUT " ++
    "-v " ++ outputsDir ++ ":/OUTPUT " ++
    "-v " ++ germliDir ++ ":/GERMLINES " ++ toolTag ++
    " start human ig"

/-- The same invocation, structurally, for reasoning about mounts and
arguments. -/
def dockerRunInvocation (inputsDir outputsDir germliDir : String) (toolId : Nat) :
    RunInvocation :=
  { inputMount := inputsDir
    outputMount := outputsDir
    germlineMount := germliDir
    image := toolId
    args := ["start", "human", "ig"] }

/-- The persistent and filesystem state the pipeline touches: the job
store, the sequence store, the annotation store; the temp directories
currently existing (`mkdtempSync` creates, nothing in the pipeline ever
removes); a counter supplying the unique tokens of `mkdtempSync` and
`uuidv1`; the files written under the input directories (path and
lines); the directories the germline snapshot was copied into; and the
log of `docker run` invocations issued. -/
structure PState where
  jobs : List JobRec
  sequences : List SequenceRec
  annotations : List AnnotationRec
  tmpDirs : List String
  dirCounter : Nat
  inputFiles : List (String × List String)
  stagedGermlineDirs : List String
  runInvocations : List RunInvocation
deriving Repr, DecidableEq

/-- Outcomes of the external calls, fixed in advance by the environment:
the `exec` error and captured stderr of the build and of the run, whether
`fs.readdir` fails, and the files found under the output directory with
their parsed rows. -/
structure World where
  buildError : Option String
  buildStderr : String
  runError : Option String
  runStderr : String
  readdirError : Bool
  outputFiles : List OutFile
deriving Repr, DecidableEq

/-- The four `mkdtempSync` names of jobOperations.ts lines 36–40, with
the unique tokens drawn from the counter: the job root and its input,
germline and output subdirectories. -/
def workspaceDirs (c : Nat) : List String :=
  let jobDir := "/tmp/job-" ++ toString c
  [jobDir,
   jobDir ++ "/input-" ++ toString (c + 1),
   jobDir ++ "/germline-" ++ toString (c + 2),
   jobDir ++ "/output-" ++ toString (c + 3)]

/-- Steps 1–4 of `processJobs` after a job was found (jobOperations.ts
lines 25–53): claim the job by setting the copied document's status to
`'PROCESSING'` and writing it back with
`findOneAndUpdate({_id: job._id}, job)` — the filter is the id alone;
`mkdtempSync` the workspace root and its three subdirectories; export
the target dataset's sequences to one fresh FASTA file under the input
directory; copy the bundled germline snapshot into the germline
directory. -/
def stagedState (s : PState) (nextJob : JobRec) : PState :=
  let job : JobRec := { nextJob with status := "PROCESSING" }
  let s1 : PState :=
    { s with jobs := (findOneAndUpdate (fun k => k.id = job.id) job s.jobs).2 }
  let jobDir := "/tmp/job-" ++ toString s1.dirCounter
  let inputsDir := jobDir ++ "/input-" ++ toString (s1.dirCounter + 1)
  let germliDir := jobDir ++ "/germline-" ++ toString (s1.dirCounter + 2)
  let outputsDir := jobDir ++ "/output-" ++ toString (s1.dirCounter + 3)
  let s2 : PState :=
    { s1 with tmpDirs := s1.tmpDirs ++ [jobDir, inputsDir, germliDir, outputsDir],
              dirCounter := s1.dirCounter + 4 }
  let fastaFileInput := "uuid-" ++ toString s2.dirCounter ++ ".fasta"
  let inputSequences := s2.sequences.filter (fun q => q.datasetId = job.target)
  let s3 : PState :=
    { s2 with inputFiles :=
        s2.inputFiles ++ [(inputsDir ++ "/" ++ fastaFileInput, fastaLines inputSequences)] }
  { s3 with stagedGermlineDirs := s3.stagedGermlineDirs ++ [germliDir] }

/-- The staged state after the `docker run` has additionally been
issued (jobOperations.ts lines 69–75): the run command binds
`inputsDir:/INPUT`, `outputsDir:/OUTPUT`, `germliDir:/GERMLINES`, uses
the tool's id as image tag, and passes `start human ig`. -/
def ranState (s : PState) (nextJob : JobRec) : PState :=
  let s4 := stagedState s nextJob
  let dirs := workspaceDirs s.dirCounter
  { s4 with runInvocations :=
      s4.runInvocations ++
        [dockerRunInvocation (dirs.getD 1 "") (dirs.getD 3 "") (dirs.getD 2 "") nextJob.tool] }

/-- The final state of a fully successful run (jobOperations.ts lines
87–116): for every output file and every parsed row one annotation
bound to the job's id is saved, then the document's status is set to
`'DONE'` and written back with `findOneAndUpdate({_id: job._id}, job)`. -/
def doneState (s : PState) (nextJob : JobRec) (w : World) : PState :=
  let s5 := ranState s nextJob
  let job : JobRec := { nextJob with status := "PROCESSING" }
  let s6 := { s5 with annotations := s5.annotations ++ ingestFiles job.id w.outputFiles }
  let jobDone : JobRec := { job with status := "DONE" }
  { s6 with jobs := (findOneAndUpdate (fun k => k.id = jobDone.id) jobDone s6.jobs).2 }

/-- Embeds `JobOperations.processJobs` (jobOperations.ts lines 19–124), the
eventual combined effect of the handler and its `exec`/`readdir`
callbacks.

1. `findOne({status: 'SUBMITTED'})`; if no document matches, nothing
   happens.
2. Otherwise the claim/workspace/export/germline steps run
   unconditionally (`stagedState`).
3. `exec` the docker build; on `error` or nonempty `stderr` the
   callback returns — nothing further happens.
4. `exec` the docker run (`ranState`); on `error` or nonempty `stderr`
   the callback returns.
5. `readdir` the output directory; on error the process exits — nothing
   further happens.
6. Otherwise ingestion runs and the job is marked DONE (`doneState`). -/
def processJobs (s : PState) (w : World) : PState :=
  match findOne (fun j => j.status = "SUBMITTED") s.jobs with
  | none => s
  | some nextJob =>
    if w.buildError.isSome then stagedState s nextJob
    else if w.buildStderr ≠ "" then stagedState s nextJob
    else if w.runError.isSome then ranState s nextJob
    else if w.runStderr ≠ "" then ranState s nextJob
    else if w.readdirError then ranState s nextJob
    else doneState s nextJob w

/-- Two interleaved invocations of the claim phase of `processJobs` on
the same store: both `findOne` reads happen before either
`findOneAndUpdate` write (the reads and writes are each individually
atomic at the store; the interleaving is the racy one the source
permits, since nothing ties a read to its write).  Returns what each
invocation's `findOne` observed and the final store. -/
def twoInterleavedClaims (jobs : List JobRec) :
    Option JobRec × Option JobRec × List JobRec :=
  let ra := findOne (fun j => j.status = "SUBMITTED") jobs
  let rb := findOne (fun j => j.status = "SUBMITTED") jobs
  let jobs1 :=
    match ra with
    | none => jobs
    | some n => (findOneAndUpdate (fun k => k.id = n.id) { n with status := "PROCESSING" } jobs).2
  let jobs2 :=
    match rb with
    | none => jobs1
    | some n => (findOneAndUpdate (fun k => k.id = n.id) { n with status := "PROCESSING" } jobs1).2
  (ra, rb, jobs2)

/-! ## Helper lemmas -/

theorem stagedState_jobs (s : PState) (n : JobRec) :
    (stagedState s n).jobs =
      (findOneAndUpdate (fun k => k.id = n.id) { n with status := "PROCESSING" } s.jobs).2 := rfl

theorem stagedState_annotations (s : PState) (n : JobRec) :
    (stagedState s n).annotations = s.annotations := rfl

theorem stagedState_tmpDirs (s : PState) (n : JobRec) :
    (stagedState s n).tmpDirs = s.tmpDirs ++ workspaceDirs s.dirCounter := rfl

theorem stagedState_inputFiles (s : PState) (n : JobRec) :
    (stagedState s n).inputFiles =
      s.inputFiles ++
        [((workspaceDirs s.dirCounter).getD 1 "" ++ "/" ++
            ("uuid-" ++ toString (s.dirCounter + 4) ++ ".fasta"),
          fastaLines (s.sequences.filter (fun q => q.datasetId = n.target)))] := rfl

theorem stagedState_runInvocations (s : PState) (n : JobRec) :
    (stagedState s n).runInvocations = s.runInvocations := rfl

theorem ranState_jobs (s : PState) (n : JobRec) :
    (ranState s n).jobs = (stagedState s n).jobs := rfl

theorem ranState_annotations (s : PState) (n : JobRec) :
    (ranState s n).annotations = s.annotations := rfl

theorem ranState_tmpDirs (s : PState) (n : JobRec) :
    (ranState s n).tmpDirs = s.tmpDirs ++ workspaceDirs s.dirCounter := rfl

theorem ranState_inputFiles (s : PState) (n : JobRec) :
    (ranState s n).inputFiles = (stagedState s n).inputFiles := rfl

theorem ranState_runInvocations (s : PState) (n : JobRec) :
    (ranState s n).runInvocations =
      s.runInvocations ++
        [dockerRunInvocation ((workspaceDirs s.dirCounter).getD 1 "")
          ((workspaceDirs s.dirCounter).getD 3 "")
          ((workspaceDirs s.dirCounter).getD 2 "") n.tool] := rfl

theorem doneState_annotations (s : PState) (n : JobRec) (w : World) :
    (doneState s n w).annotations = s.annotations ++ ingestFiles n.id w.outputFiles := rfl

theorem doneState_jobs (s : PState) (n : JobRec) (w : World) :
    (doneState s n w).jobs =
      (findOneAndUpdate (fun k => k.id = n.id) { n with status := "DONE" }
        (ranState s n).jobs).2 := rfl

theorem doneState_tmpDirs (s : PState) (n : JobRec) (w : World) :
    (doneState s n w).tmpDirs = s.tmpDirs ++ workspaceDirs s.dirCounter := rfl

theorem doneState_inputFiles (s : PState) (n : JobRec) (w : World) :
    (doneState s n w).inputFiles = (stagedState s n).inputFiles := rfl

theorem doneState_runInvocations (s : PState) (n : JobRec) (w : World) :
    (doneState s n w).runInvocations = (ranState s n).runInvocations := rfl

/-- With no SUBMITTED job, `processJobs` is the identity. -/
theorem processJobs_none (s : PState) (w : World)
    (h : findOne (fun j => j.status = "SUBMITTED") s.jobs = none) :
    processJobs s w = s := by
  simp [processJobs, h]

/-- On a build `exec` error or nonempty build stderr, the run stops at
the staged state. -/
theorem processJobs_staged (s : PState) (w : World) (n : JobRec)
    (hn : findOne (fun j => j.status = "SUBMITTED") s.jobs = some n)
    (hf : w.buildError.isSome ∨ w.buildStderr ≠ "") :
    processJobs s w = stagedState s n := by
  rcases hf with hf | hf
  · simp [processJobs, hn, hf]
  · by_cases hb : w.buildError.isSome
    · simp [processJobs, hn, hb]
    · simp [processJobs, hn, hb, hf]

/-- On a run `exec` error, nonempty run stderr, or a readdir error, the
run stops right after the docker run was issued. -/
theorem processJobs_ran (s : PState) (w : World) (n : JobRec)
    (hn : findOne (fun j => j.status = "SUBMITTED") s.jobs = some n)
    (hb : w.buildError = none) (hbs : w.buildStderr = "")
    (hf : w.runError.isSome ∨ w.runStderr ≠ "" ∨ w.readdirError = true) :
    processJobs s w = ranState s n := by
  rcases hf with hf | hf | hf
  · simp [processJobs, hn, hb, hbs, hf]
  · by_cases hr : w.runError.isSome
    · simp [processJobs, hn, hb, hbs, hr]
    · simp [processJobs, hn, hb, hbs, hr, hf]
  · by_cases hr : w.runError.isSome
    · simp [processJobs, hn, hb, hbs, hr]
    · by_cases hrs : w.runStderr = ""
      · simp [processJobs, hn, hb, hbs, hr, hrs, hf]
      · simp [processJobs, hn, hb, hbs, hr, hrs]

/-- On the full success path, the run ends in the done state. -/
theorem processJobs_done (s : PState) (w : World) (n : JobRec)
    (hn : findOne (fun j => j.status = "SUBMITTED") s.jobs = some n)
    (hb : w.buildError = none) (hbs : w.buildStderr = "")
    (hr : w.runError = none) (hrs : w.runStderr = "")
    (hd : w.readdirError = false) :
    processJobs s w = doneState s n w := by
  simp [processJobs, hn, hb, hbs, hr, hrs, hd]

/-- Every element of `replaceFirst p upd l` is an element of `l` or is
the update document itself. -/
theorem mem_replaceFirst {p : JobRec → Bool} {upd j : JobRec} {l : List JobRec}
    (hj : j ∈ replaceFirst p upd l) : j ∈ l ∨ j = upd := by
  induction l with
  | nil => simp [replaceFirst] at hj
  | cons a rest ih =>
    by_cases ha : p a
    · simp only [replaceFirst, if_pos ha, List.mem_cons] at hj
      rcases hj with h | h
      · exact Or.inr h
      · exact Or.inl (List.mem_cons_of_mem _ h)
    · simp only [replaceFirst, if_neg ha, List.mem_cons] at hj
      rcases hj with h | h
      · exact Or.inl (by simp [h])
      · rcases ih h with h1 | h1
        · exact Or.inl (List.mem_cons_of_mem _ h1)
        · exact Or.inr h1

/-- If some document matches the filter and the update document itself
matches the filter, a document still matches after `replaceFirst`. -/
theorem find?_replaceFirst_isSome {p : JobRec → Bool} {upd : JobRec} {l : List JobRec}
    (hl : (l.find? p).isSome) (hu : p upd) :
    ((replaceFirst p upd l).find? p).isSome := by
  induction l with
  | nil => simp at hl
  | cons a rest ih =>
    by_cases ha : p a
    · simp [replaceFirst, if_pos ha, List.find?_cons_of_pos, hu]
    · rw [List.find?_cons_of_neg _ ha] at hl
      simp only [replaceFirst, if_neg ha]
      rw [List.find?_cons_of_neg _ ha]
      exact ih hl

/-- The matched document returned by `findOneAndUpdate` is exactly what
`find?` returns on the filter: the update succeeds or fails on the
filter alone. -/
theorem findOneAndUpdate_fst (p : JobRec → Bool) (upd : JobRec) (l : List JobRec) :
    (findOneAndUpdate p upd l).1 = l.find? p := by
  cases h : l.find? p <;> simp [findOneAndUpdate, h]

/-- Every element of the store after `findOneAndUpdate` was already in
the store or is the update document. -/
theorem mem_findOneAndUpdate_snd {p : JobRec → Bool} {upd j : JobRec} {l : List JobRec}
    (hj : j ∈ (findOneAndUpdate p upd l).2) : j ∈ l ∨ j = upd := by
  cases h : l.find? p with
  | none =>
    simp only [findOneAndUpdate, h] at hj
    exact Or.inl hj
  | some x =>
    simp only [findOneAndUpdate, h] at hj
    exact mem_replaceFirst hj

/-- Case analysis on a claimed run: it stops at the staged state, at the
ran state, or reaches the done state. -/
theorem processJobs_cases (s : PState) (w : World) (n : JobRec)
    (hn : findOne (fun j => j.status = "SUBMITTED") s.jobs = some n) :
    processJobs s w = stagedState s n ∨ processJobs s w = ranState s n ∨
      processJobs s w = doneState s n w := by
  by_cases hb : w.buildError.isSome
  · exact Or.inl (processJobs_staged s w n hn (Or.inl hb))
  · have hbn : w.buildError = none := Option.not_isSome_iff_eq_none.mp hb
    by_cases hbs : w.buildStderr = ""
    · by_cases hr : w.runError.isSome
      · exact Or.inr (Or.inl (processJobs_ran s w n hn hbn hbs (Or.inl hr)))
      · have hrn : w.runError = none := Option.not_isSome_iff_eq_none.mp hr
        by_cases hrs : w.runStderr = ""
        · by_cases hd : w.readdirError
          · exact Or.inr (Or.inl (processJobs_ran s w n hn hbn hbs (Or.inr (Or.inr hd))))
          · exact Or.inr (Or.inr (processJobs_done s w n hn hbn hbs hrn hrs
              (by simpa using hd)))
        · exact Or.inr (Or.inl (processJobs_ran s w n hn hbn hbs (Or.inr (Or.inl hrs))))
    · exact Or.inl (processJobs_staged s w n hn (Or.inr hbs))

/-- On every branch of a claimed run, the input files written are those
of the staged state. -/
theorem processJobs_inputFiles (s : PState) (w : World) (n : JobRec)
    (hn : findOne (fun j => j.status = "SUBMITTED") s.jobs = some n) :
    (processJobs s w).inputFiles = (stagedState s n).inputFiles := by
  rcases processJobs_cases s w n hn with h | h | h <;> rw [h]
  · exact ranState_inputFiles s n
  · exact doneState_inputFiles s n w

/-- On every branch of a claimed run, the workspace directories created
at staging are still present in the final state. -/
theorem processJobs_tmpDirs (s : PState) (w : World) (n : JobRec)
    (hn : findOne (fun j => j.status = "SUBMITTED") s.jobs = some n) :
    (processJobs s w).tmpDirs = s.tmpDirs ++ workspaceDirs s.dirCounter := by
  rcases processJobs_cases s w n hn with h | h | h <;> rw [h]
  · exact stagedState_tmpDirs s n
  · exact ranState_tmpDirs s n
  · exact doneState_tmpDirs s n w

theorem fastaLines_cons (q : SequenceRec) (rest : List SequenceRec) :
    fastaLines (q :: rest) = (">" ++ q.seqId) :: q.content :: fastaLines rest := rfl

theorem fastaLines_length (seqs : List SequenceRec) :
    (fastaLines seqs).length = 2 * seqs.length := by
  induction seqs with
  | nil => rfl
  | cons q rest ih =>
    rw [fastaLines_cons]
    simp only [List.length_cons, ih]
    omega

theorem fastaLines_get (seqs : List SequenceRec) :
    ∀ i : Nat, ∀ hi : i < seqs.length,
      (fastaLines seqs)[2 * i]? = some (">" ++ (seqs.get ⟨i, hi⟩).seqId) ∧
      (fastaLines seqs)[2 * i + 1]? = some ((seqs.get ⟨i, hi⟩).content) := by
  induction seqs with
  | nil => intro i hi; simp at hi
  | cons q rest ih =>
    intro i hi
    cases i with
    | zero => refine ⟨?_, ?_⟩ <;> simp [fastaLines_cons]
    | succ k =>
      have hk : k < rest.length := by simpa using hi
      have h2 : 2 * (k + 1) = 2 * k + 1 + 1 := by ring
      rw [fastaLines_cons, h2]
      constructor
      · rw [List.getElem?_cons_succ, List.getElem?_cons_succ]
        exact (ih k hk).1
      · rw [List.getElem?_cons_succ, List.getElem?_cons_succ]
        exact (ih k hk).2

theorem ingestFiles_cons (jid : Nat) (f : OutFile) (rest : List OutFile) :
    ingestFiles jid (f :: rest) = f.rows.map (mkAnnotationRec jid) ++ ingestFiles jid rest := rfl

theorem ingestFiles_length (jid : Nat) (files : List OutFile) :
    (ingestFiles jid files).length = (files.map (fun f => f.rows.length)).sum := by
  induction files with
  | nil => rfl
  | cons f rest ih =>
    rw [ingestFiles_cons]
    simp [ih]

theorem ingestFiles_jobId (jid : Nat) (files : List OutFile) :
    ∀ a ∈ ingestFiles jid files, a.jobId = jid := by
  induction files with
  | nil => intro a ha; simp [ingestFiles] at ha
  | cons f rest ih =>
    intro a ha
    rw [ingestFiles_cons] at ha
    rcases List.mem_append.mp ha with h | h
    · rcases List.mem_map.mp h with ⟨d, _, rfl⟩
      rfl
    · exact ih a h

theorem mem_ingestFiles (jid : Nat) (f : OutFile) (d : Row) :
    ∀ files : List OutFile, f ∈ files → d ∈ f.rows →
      mkAnnotationRec jid d ∈ ingestFiles jid files := by
  intro files
  induction files with
  | nil => intro hf _; simp at hf
  | cons g rest ih =>
    intro hf hd
    rw [ingestFiles_cons]
    rcases List.mem_cons.mp hf with h | h
    · subst h
      exact List.mem_append_left _ (List.mem_map_of_mem _ hd)
    · exact List.mem_append_right _ (ih h hd)

/-! ## Claims -/

/-- **C3.** For every dataset with N sequences, the export step writes a
single FASTA file containing exactly N header/content pairs in dataset
iteration order: the i-th header line is `>` followed by the i-th
sequence's identifier, and the following content line is that sequence's
raw content string.  (The claimed run appends exactly one input file,
whose lines are `fastaLines` of the target dataset's sequences.) -/
theorem export_writes_single_fasta (s : PState) (w : World) (n : JobRec)
    (hn : findOne (fun j => j.status = "SUBMITTED") s.jobs = some n) :
    (∃ fname : String,
      (processJobs s w).inputFiles =
        s.inputFiles ++
          [(fname, fastaLines (s.sequences.filter (fun q => q.datasetId = n.target)))]) ∧
    ∀ seqs : List SequenceRec,
      (fastaLines seqs).length = 2 * seqs.length ∧
      ∀ i : Nat, ∀ hi : i < seqs.length,
        (fastaLines seqs)[2 * i]? = some (">" ++ (seqs.get ⟨i, hi⟩).seqId) ∧
        (fastaLines seqs)[2 * i + 1]? = some ((seqs.get ⟨i, hi⟩).content) := by
  constructor
  · refine ⟨(workspaceDirs s.dirCounter).getD 1 "" ++ "/" ++
      ("uuid-" ++ toString (s.dirCounter + 4) ++ ".fasta"), ?_⟩
    rw [processJobs_inputFiles s w n hn, stagedState_inputFiles]
  · intro seqs
    exact ⟨fastaLines_length seqs, fastaLines_get seqs⟩

/-- Witness for C3: a claimed job over a dataset with two sequences. -/
theorem export_writes_single_fasta_witness :
    (findOne (fun j => j.status = "SUBMITTED")
        ([⟨1, 7, 3, 4, "SUBMITTED"⟩] : List JobRec) = some ⟨1, 7, 3, 4, "SUBMITTED"⟩) ∧
    ((∃ fname : String,
      (processJobs ⟨[⟨1, 7, 3, 4, "SUBMITTED"⟩], [⟨"sA", "ACGT", 7⟩, ⟨"sB", "GGG", 7⟩],
          [], [], 0, [], [], []⟩ ⟨none, "", none, "", false, []⟩).inputFiles =
        ([] : List (String × List String)) ++
          [(fname, fastaLines (([⟨"sA", "ACGT", 7⟩, ⟨"sB", "GGG", 7⟩] :
              List SequenceRec).filter (fun q => q.datasetId = 7)))]) ∧
    ∀ seqs : List SequenceRec,
      (fastaLines seqs).length = 2 * seqs.length ∧
      ∀ i : Nat, ∀ hi : i < seqs.length,
        (fastaLines seqs)[2 * i]? = some (">" ++ (seqs.get ⟨i, hi⟩).seqId) ∧
        (fastaLines seqs)[2 * i + 1]? = some ((seqs.get ⟨i, hi⟩).content)) :=
  ⟨by decide,
   export_writes_single_fasta
     ⟨[⟨1, 7, 3, 4, "SUBMITTED"⟩], [⟨"sA", "ACGT", 7⟩, ⟨"sB", "GGG", 7⟩],
       [], [], 0, [], [], []⟩
     ⟨none, "", none, "", false, []⟩ ⟨1, 7, 3, 4, "SUBMITTED"⟩ (by decide)⟩

/-- **C4.** For every file directly under the output directory and every
data row parsed from it, ingestion creates exactly one Annotation record
bound to the claimed job's id, with the columns mapped
sequence_id→seqId, locus→locus, v_call→v_call, d_call→d_call,
j_call→j_call, productive→productive, cdr3_aa→cdr3aa. -/
theorem ingestion_one_record_per_row (s : PState) (w : World) (n : JobRec)
    (hn : findOne (fun j => j.status = "SUBMITTED") s.jobs = some n)
    (hb : w.buildError = none) (hbs : w.buildStderr = "")
    (hr : w.runError = none) (hrs : w.runStderr = "") (hd : w.readdirError = false) :
    (processJobs s w).annotations = s.annotations ++ ingestFiles n.id w.outputFiles ∧
    (ingestFiles n.id w.outputFiles).length =
      (w.outputFiles.map (fun f => f.rows.length)).sum ∧
    (∀ a ∈ ingestFiles n.id w.outputFiles, a.jobId = n.id) ∧
    ∀ d : Row,
      mkAnnotationRec n.id d =
        { jobId := n.id, seqId := d.sequence_id, locus := d.locus, v_call := d.v_call,
          d_call := d.d_call, j_call := d.j_call, productive := d.productive,
          cdr3aa := d.cdr3_aa } := by
  refine ⟨?_, ingestFiles_length n.id w.outputFiles, ingestFiles_jobId n.id w.outputFiles,
    fun d => rfl⟩
  rw [processJobs_done s w n hn hb hbs hr hrs hd, doneState_annotations]

/-- Witness for C4: a successful run over one output file with one row. -/
theorem ingestion_one_record_per_row_witness :
    (findOne (fun j => j.status = "SUBMITTED")
        ([⟨1, 7, 3, 4, "SUBMITTED"⟩] : List JobRec) = some ⟨1, 7, 3, 4, "SUBMITTED"⟩) ∧
    ((⟨none, "", none, "", false,
        [⟨"f.tsv", [⟨some "s1", some "IGH", some "V1", some "D1", some "J1", some "T",
          some "CAR"⟩]⟩]⟩ : World).buildError = none) ∧
    ((processJobs ⟨[⟨1, 7, 3, 4, "SUBMITTED"⟩], [], [], [], 0, [], [], []⟩
        ⟨none, "", none, "", false,
          [⟨"f.tsv", [⟨some "s1", some "IGH", some "V1", some "D1", some "J1", some "T",
            some "CAR"⟩]⟩]⟩).annotations =
      ([] : List AnnotationRec) ++
        ingestFiles 1
          [⟨"f.tsv", [⟨some "s1", some "IGH", some "V1", some "D1", some "J1", some "T",
            some "CAR"⟩]⟩] ∧
     (ingestFiles 1
        [⟨"f.tsv", [⟨some "s1", some "IGH", some "V1", some "D1", some "J1", some "T",
          some "CAR"⟩]⟩]).length =
       (([⟨"f.tsv", [⟨some "s1", some "IGH", some "V1", some "D1", some "J1", some "T",
          some "CAR"⟩]⟩] : List OutFile).map (fun f => f.rows.length)).sum ∧
     (∀ a ∈ ingestFiles 1
        [⟨"f.tsv", [⟨some "s1", some "IGH", some "V1", some "D1", some "J1", some "T",
          some "CAR"⟩]⟩], a.jobId = 1) ∧
     ∀ d : Row,
       mkAnnotationRec 1 d =
         { jobId := 1, seqId := d.sequence_id, locus := d.locus, v_call := d.v_call,
           d_call := d.d_call, j_call := d.j_call, productive := d.productive,
           cdr3aa := d.cdr3_aa }) :=
  ⟨by decide, rfl,
   ingestion_one_record_per_row ⟨[⟨1, 7, 3, 4, "SUBMITTED"⟩], [], [], [], 0, [], [], []⟩
     ⟨none, "", none, "", false,
       [⟨"f.tsv", [⟨some "s1", some "IGH", some "V1", some "D1", some "J1", some "T",
         some "CAR"⟩]⟩]⟩
     ⟨1, 7, 3, 4, "SUBMITTED"⟩ (by decide) rfl rfl rfl rfl rfl⟩

/-- **C9.** If the store contains no job with status SUBMITTED, a
scheduler invocation is a no-op: the returned state is the input state —
no job status is mutated, no workspace directory is created, no
container is built or run, and no annotation record is created. -/
theorem no_submitted_job_is_noop (s : PState) (w : World)
    (h : ∀ j ∈ s.jobs, j.status ≠ "SUBMITTED") :
    processJobs s w = s := by
  apply processJobs_none
  simp only [findOne, List.find?_eq_none, decide_eq_true_eq]
  exact h

/-- Witness for C9: a store whose only job is DONE. -/
theorem no_submitted_job_is_noop_witness :
    (∀ j ∈ ([⟨1, 10, 20, 30, "DONE"⟩] : List JobRec), j.status ≠ "SUBMITTED") ∧
    processJobs ⟨[⟨1, 10, 20, 30, "DONE"⟩], [], [], [], 0, [], [], []⟩
        ⟨none, "", none, "", false, []⟩ =
      ⟨[⟨1, 10, 20, 30, "DONE"⟩], [], [], [], 0, [], [], []⟩ :=
  ⟨by decide,
   no_submitted_job_is_noop ⟨[⟨1, 10, 20, 30, "DONE"⟩], [], [], [], 0, [], [], []⟩
     ⟨none, "", none, "", false, []⟩ (by decide)⟩

/-- **C10.** For every claimed job, the container is invoked with the
constant positional parameters `human` (species) and `ig` (receptor):
every `docker run` invocation the scheduler issues carries the argument
vector `start human ig`, which does not depend on the job's dataset,
tool or germline fields, and the run command string always ends in
`" start human ig"`. -/
theorem container_args_constant (s : PState) (w : World) :
    (∀ inv ∈ (processJobs s w).runInvocations,
        inv ∈ s.runInvocations ∨ inv.args = ["start", "human", "ig"]) ∧
    (∀ a b c : String, ∀ t : Nat,
        (dockerRunInvocation a b c t).args = ["start", "human", "ig"]) ∧
    (∀ a b c g : String, ∃ p : String, dockerRunCmd a b c g = p ++ " start human ig") := by
  refine ⟨?_, fun a b c t => rfl, fun a b c g => ⟨_, rfl⟩⟩
  intro inv hinv
  cases hfind : findOne (fun j => j.status = "SUBMITTED") s.jobs with
  | none =>
    rw [processJobs_none s w hfind] at hinv
    exact Or.inl hinv
  | some n =>
    rcases processJobs_cases s w n hfind with h | h | h <;> rw [h] at hinv
    · rw [stagedState_runInvocations] at hinv
      exact Or.inl hinv
    · rw [ranState_runInvocations] at hinv
      rcases List.mem_append.mp hinv with h1 | h1
      · exact Or.inl h1
      · rw [List.mem_singleton] at h1
        subst h1
        exact Or.inr rfl
    · rw [doneState_runInvocations, ranState_runInvocations] at hinv
      rcases List.mem_append.mp hinv with h1 | h1
      · exact Or.inl h1
      · rw [List.mem_singleton] at h1
        subst h1
        exact Or.inr rfl

/-- Witness for C10: a successful claimed run issues exactly one
invocation, with args `start human ig`. -/
theorem container_args_constant_witness :
    (⟨"/tmp/job-0/input-1", "/tmp/job-0/output-3", "/tmp/job-0/germline-2", 3,
        ["start", "human", "ig"]⟩ : RunInvocation) ∈
      (processJobs ⟨[⟨1, 7, 3, 4, "SUBMITTED"⟩], [], [], [], 0, [], [], []⟩
        ⟨none, "", none, "", false, []⟩).runInvocations ∧
    ((⟨"/tmp/job-0/input-1", "/tmp/job-0/output-3", "/tmp/job-0/germline-2", 3,
        ["start", "human", "ig"]⟩ : RunInvocation) ∈
      ([] : List RunInvocation) ∨
    (⟨"/tmp/job-0/input-1", "/tmp/job-0/output-3", "/tmp/job-0/germline-2", 3,
        ["start", "human", "ig"]⟩ : RunInvocation).args = ["start", "human", "ig"]) :=
  ⟨by decide,
   (container_args_constant ⟨[⟨1, 7, 3, 4, "SUBMITTED"⟩], [], [], [], 0, [], [], []⟩
     ⟨none, "", none, "", false, []⟩).1 _ (by decide)⟩

/-- **C6 counterexample.** The claim says a malformed row (one missing a
required field such as `v_call`) is skipped.  It is not: on a file with
two rows whose second lacks `v_call`, ingestion creates two records —
including one for the malformed row, with `v_call` absent — instead of
one record plus a warning.  (The source also returns no
annotation/warning counts: `processJobs` produces only the new state.) -/
theorem malformed_row_not_skipped_concrete :
    (ingestFiles 5 [⟨"out.tsv",
        [⟨some "s1", some "IGH", some "IGHV1", some "IGHD1", some "IGHJ1", some "T",
          some "CAR"⟩,
         ⟨some "s2", some "IGH", none, some "IGHD2", some "IGHJ2", some "T",
          some "CSS"⟩]⟩]).length = 2 ∧
    (⟨5, some "s2", some "IGH", none, some "IGHD2", some "IGHJ2", some "T", some "CSS"⟩ :
        AnnotationRec) ∈
      ingestFiles 5 [⟨"out.tsv",
        [⟨some "s1", some "IGH", some "IGHV1", some "IGHD1", some "IGHJ1", some "T",
          some "CAR"⟩,
         ⟨some "s2", some "IGH", none, some "IGHD2", some "IGHJ2", some "T",
          some "CSS"⟩]⟩] := by
  decide

/-- **C6 (amended).** A malformed data row (one missing a field such as
`v_call`) is not skipped and does not abort ingestion: every row of
every output file, malformed or not, yields its annotation record, with
the missing field stored as absent; the total record count is the total
row count.  No annotation or warning count is returned — the operation's
only result is the new store state. -/
theorem malformed_row_still_ingested (jid : Nat) (files : List OutFile)
    (f : OutFile) (hf : f ∈ files) (d : Row) (hd : d ∈ f.rows) :
    mkAnnotationRec jid d ∈ ingestFiles jid files ∧
    (mkAnnotationRec jid d).v_call = d.v_call ∧
    (ingestFiles jid files).length = (files.map (fun g => g.rows.length)).sum :=
  ⟨mem_ingestFiles jid f d files hf hd, rfl, ingestFiles_length jid files⟩

/-- Witness for C6 (amended): the malformed second row of a two-row file
yields a record with `v_call` absent. -/
theorem malformed_row_still_ingested_witness :
    ((⟨"out.tsv",
        [⟨some "s1", some "IGH", some "IGHV1", some "IGHD1", some "IGHJ1", some "T",
          some "CAR"⟩,
         ⟨some "s2", some "IGH", none, some "IGHD2", some "IGHJ2", some "T",
          some "CSS"⟩]⟩ : OutFile) ∈
      ([⟨"out.tsv",
        [⟨some "s1", some "IGH", some "IGHV1", some "IGHD1", some "IGHJ1", some "T",
          some "CAR"⟩,
         ⟨some "s2", some "IGH", none, some "IGHD2", some "IGHJ2", some "T",
          some "CSS"⟩]⟩] : List OutFile)) ∧
    ((⟨some "s2", some "IGH", none, some "IGHD2", some "IGHJ2", some "T", some "CSS"⟩ :
        Row) ∈
      (⟨"out.tsv",
        [⟨some "s1", some "IGH", some "IGHV1", some "IGHD1", some "IGHJ1", some "T",
          some "CAR"⟩,
         ⟨some "s2", some "IGH", none, some "IGHD2", some "IGHJ2", some "T",
          some "CSS"⟩]⟩ : OutFile).rows) ∧
    (mkAnnotationRec 9
        ⟨some "s2", some "IGH", none, some "IGHD2", some "IGHJ2", some "T", some "CSS"⟩ ∈
      ingestFiles 9 [⟨"out.tsv",
        [⟨some "s1", some "IGH", some "IGHV1", some "IGHD1", some "IGHJ1", some "T",
          some "CAR"⟩,
         ⟨some "s2", some "IGH", none, some "IGHD2", some "IGHJ2", some "T",
          some "CSS"⟩]⟩] ∧
     (mkAnnotationRec 9
        ⟨some "s2", some "IGH", none, some "IGHD2", some "IGHJ2", some "T",
          some "CSS"⟩).v_call =
       (⟨some "s2", some "IGH", none, some "IGHD2", some "IGHJ2", some "T", some "CSS"⟩ :
         Row).v_call ∧
     (ingestFiles 9 [⟨"out.tsv",
        [⟨some "s1", some "IGH", some "IGHV1", some "IGHD1", some "IGHJ1", some "T",
          some "CAR"⟩,
         ⟨some "s2", some "IGH", none, some "IGHD2", some "IGHJ2", some "T",
          some "CSS"⟩]⟩]).length =
       (([⟨"out.tsv",
        [⟨some "s1", some "IGH", some "IGHV1", some "IGHD1", some "IGHJ1", some "T",
          some "CAR"⟩,
         ⟨some "s2", some "IGH", none, some "IGHD2", some "IGHJ2", some "T",
          some "CSS"⟩]⟩] : List OutFile).map (fun g => g.rows.length)).sum) :=
  ⟨by decide, by decide,
   malformed_row_still_ingested 9
     [⟨"out.tsv",
        [⟨some "s1", some "IGH", some "IGHV1", some "IGHD1", some "IGHJ1", some "T",
          some "CAR"⟩,
         ⟨some "s2", some "IGH", none, some "IGHD2", some "IGHJ2", some "T",
          some "CSS"⟩]⟩]
     ⟨"out.tsv",
        [⟨some "s1", some "IGH", some "IGHV1", some "IGHD1", some "IGHJ1", some "T",
          some "CAR"⟩,
         ⟨some "s2", some "IGH", none, some "IGHD2", some "IGHJ2", some "T",
          some "CSS"⟩]⟩
     (by decide)
     ⟨some "s2", some "IGH", none, some "IGHD2", some "IGHJ2", some "T", some "CSS"⟩
     (by decide)⟩

/-- **C1 counterexample.** The claim says claiming is a compare-and-swap:
of two concurrent invocations exactly one claims the job, the other
observes it as already claimed, and the claim update fails whenever the
status has changed from SUBMITTED.  On the store holding exactly one
SUBMITTED job, in the interleaving where both invocations read before
either writes, both `findOne` reads observe the job as eligible; and the
id-keyed `findOneAndUpdate` still succeeds (returns the matched
document) on a store where the job's status is already PROCESSING,
where the claim requires it to fail. -/
theorem both_invocations_claim_same_job :
    ((twoInterleavedClaims [⟨1, 10, 20, 30, "SUBMITTED"⟩]).1 =
        some ⟨1, 10, 20, 30, "SUBMITTED"⟩) ∧
    ((twoInterleavedClaims [⟨1, 10, 20, 30, "SUBMITTED"⟩]).2.1 =
        some ⟨1, 10, 20, 30, "SUBMITTED"⟩) ∧
    ((findOneAndUpdate (fun k => k.id = 1) ⟨1, 10, 20, 30, "PROCESSING"⟩
        [⟨1, 10, 20, 30, "PROCESSING"⟩]).1 = some ⟨1, 10, 20, 30, "PROCESSING"⟩) := by
  decide

/-- **C1 (amended).** Claiming is a non-atomic find-then-update: the
scheduler fetches a job with status SUBMITTED and separately writes it
back PROCESSING with an update keyed only by the job's id.  Whenever a
SUBMITTED job exists, in the interleaving where both of two concurrent
invocations read before either writes, both observe the same job as
eligible; and the id-keyed update succeeds regardless of the job's
current status — in particular it does not fail after the status has
already changed from SUBMITTED. -/
theorem claim_is_find_then_update (jobs : List JobRec) (n : JobRec)
    (h : findOne (fun j => j.status = "SUBMITTED") jobs = some n) :
    (twoInterleavedClaims jobs).1 = some n ∧
    (twoInterleavedClaims jobs).2.1 = some n ∧
    ∀ upd : JobRec,
      ((findOneAndUpdate (fun k => k.id = n.id) upd
          ((findOneAndUpdate (fun k => k.id = n.id) { n with status := "PROCESSING" }
            jobs).2)).1).isSome = true := by
  have h1 : (twoInterleavedClaims jobs).1 =
      findOne (fun j => j.status = "SUBMITTED") jobs := rfl
  have h2 : (twoInterleavedClaims jobs).2.1 =
      findOne (fun j => j.status = "SUBMITTED") jobs := rfl
  refine ⟨h1.trans h, h2.trans h, ?_⟩
  intro upd
  have hmem : n ∈ jobs := List.mem_of_find?_eq_some h
  have hid : (jobs.find? (fun k => decide (k.id = n.id))).isSome :=
    List.find?_isSome.mpr ⟨n, hmem, by simp⟩
  obtain ⟨x, hx⟩ := Option.isSome_iff_exists.mp hid
  have hsnd :
      (findOneAndUpdate (fun k => k.id = n.id) { n with status := "PROCESSING" } jobs).2 =
        replaceFirst (fun k => k.id = n.id) { n with status := "PROCESSING" } jobs := by
    simp [findOneAndUpdate, hx]
  rw [hsnd, findOneAndUpdate_fst]
  exact find?_replaceFirst_isSome hid (by simp)

/-- Witness for C1 (amended) on the one-SUBMITTED-job store. -/
theorem claim_is_find_then_update_witness :
    (findOne (fun j => j.status = "SUBMITTED") [⟨1, 10, 20, 30, "SUBMITTED"⟩] =
        some ⟨1, 10, 20, 30, "SUBMITTED"⟩) ∧
    ((twoInterleavedClaims [⟨1, 10, 20, 30, "SUBMITTED"⟩]).1 =
        some ⟨1, 10, 20, 30, "SUBMITTED"⟩ ∧
     (twoInterleavedClaims [⟨1, 10, 20, 30, "SUBMITTED"⟩]).2.1 =
        some ⟨1, 10, 20, 30, "SUBMITTED"⟩ ∧
     ∀ upd : JobRec,
      ((findOneAndUpdate (fun k => k.id = 1) upd
          ((findOneAndUpdate (fun k => k.id = 1) ⟨1, 10, 20, 30, "PROCESSING"⟩
            [⟨1, 10, 20, 30, "SUBMITTED"⟩]).2)).1).isSome = true) :=
  ⟨by decide,
   claim_is_find_then_update [⟨1, 10, 20, 30, "SUBMITTED"⟩] ⟨1, 10, 20, 30, "SUBMITTED"⟩
     (by decide)⟩

/-- **C2 counterexample.** The claim says a build or run failure sets the
job's status to ERROR.  On a store with one SUBMITTED job and a failing
build, the job's status after the run is PROCESSING — no ERROR status is
ever written (no annotation is created either, which is the half of the
claim that does hold). -/
theorem build_failure_no_error_status_concrete :
    ((processJobs ⟨[⟨1, 7, 3, 4, "SUBMITTED"⟩], [], [], [], 0, [], [], []⟩
        ⟨some "build failed", "", none, "", false, []⟩).jobs =
      [⟨1, 7, 3, 4, "PROCESSING"⟩]) ∧
    (∀ j ∈ (processJobs ⟨[⟨1, 7, 3, 4, "SUBMITTED"⟩], [], [], [], 0, [], [], []⟩
        ⟨some "build failed", "", none, "", false, []⟩).jobs, j.status ≠ "ERROR") ∧
    ((processJobs ⟨[⟨1, 7, 3, 4, "SUBMITTED"⟩], [], [], [], 0, [], [], []⟩
        ⟨some "build failed", "", none, "", false, []⟩).annotations = []) := by
  decide

/-- **C2 (amended).** For every claimed job, if the image build fails or
the container run fails, result ingestion is not attempted — no
annotation record is created — but the job's status is not set to ERROR:
the job store's only write is the PROCESSING claim update, so the job
remains PROCESSING, and any job holding ERROR afterwards already held it
before. -/
theorem failure_skips_ingestion_without_error (s : PState) (w : World) (n : JobRec)
    (hn : findOne (fun j => j.status = "SUBMITTED") s.jobs = some n)
    (hf : w.buildError.isSome = true ∨
      (w.buildError = none ∧ w.buildStderr = "" ∧ w.runError.isSome = true)) :
    (processJobs s w).annotations = s.annotations ∧
    (processJobs s w).jobs =
      (findOneAndUpdate (fun k => k.id = n.id) { n with status := "PROCESSING" } s.jobs).2 ∧
    ∀ j ∈ (processJobs s w).jobs, j.status = "ERROR" → j ∈ s.jobs := by
  have hshape : processJobs s w = stagedState s n ∨ processJobs s w = ranState s n := by
    rcases hf with hf | ⟨hb, hbs, hr⟩
    · exact Or.inl (processJobs_staged s w n hn (Or.inl hf))
    · exact Or.inr (processJobs_ran s w n hn hb hbs (Or.inl hr))
  have hann : (processJobs s w).annotations = s.annotations := by
    rcases hshape with h | h <;>
      simp [h, stagedState_annotations, ranState_annotations]
  have hjobs : (processJobs s w).jobs =
      (findOneAndUpdate (fun k => k.id = n.id) { n with status := "PROCESSING" } s.jobs).2 := by
    rcases hshape with h | h <;>
      simp [h, stagedState_jobs, ranState_jobs]
  refine ⟨hann, hjobs, ?_⟩
  intro j hj herr
  rw [hjobs] at hj
  rcases mem_findOneAndUpdate_snd hj with hmem | heq
  · exact hmem
  · exfalso
    have hps : j.status = "PROCESSING" := by rw [heq]
    rw [hps] at herr
    exact absurd herr (by decide)

/-- Witness for C2 (amended): a failing build on the one-job store. -/
theorem failure_skips_ingestion_without_error_witness :
    (findOne (fun j => j.status = "SUBMITTED") [⟨1, 7, 3, 4, "SUBMITTED"⟩] =
        some ⟨1, 7, 3, 4, "SUBMITTED"⟩) ∧
    ((⟨some "build failed", "", none, "", false, []⟩ : World).buildError.isSome = true ∨
      ((⟨some "build failed", "", none, "", false, []⟩ : World).buildError = none ∧
       (⟨some "build failed", "", none, "", false, []⟩ : World).buildStderr = "" ∧
       (⟨some "build failed", "", none, "", false, []⟩ : World).runError.isSome = true)) ∧
    ((processJobs ⟨[⟨1, 7, 3, 4, "SUBMITTED"⟩], [], [], [], 0, [], [], []⟩
        ⟨some "build failed", "", none, "", false, []⟩).annotations = [] ∧
     (processJobs ⟨[⟨1, 7, 3, 4, "SUBMITTED"⟩], [], [], [], 0, [], [], []⟩
        ⟨some "build failed", "", none, "", false, []⟩).jobs =
       (findOneAndUpdate (fun k => k.id = 1) ⟨1, 7, 3, 4, "PROCESSING"⟩
         [⟨1, 7, 3, 4, "SUBMITTED"⟩]).2 ∧
     ∀ j ∈ (processJobs ⟨[⟨1, 7, 3, 4, "SUBMITTED"⟩], [], [], [], 0, [], [], []⟩
        ⟨some "build failed", "", none, "", false, []⟩).jobs,
       j.status = "ERROR" → j ∈ [⟨1, 7, 3, 4, "SUBMITTED"⟩]) :=
  ⟨by decide, Or.inl rfl,
   failure_skips_ingestion_without_error
     ⟨[⟨1, 7, 3, 4, "SUBMITTED"⟩], [], [], [], 0, [], [], []⟩
     ⟨some "build failed", "", none, "", false, []⟩
     ⟨1, 7, 3, 4, "SUBMITTED"⟩ (by decide) (Or.inl rfl)⟩

/-- **C5 counterexample.** The claim says the workspace root directory
and its subdirectories are destroyed before the run completes, so no
temporary directories are leaked.  After a fully successful run starting
from an empty temp directory list, all four workspace directories are
still present in the final state. -/
theorem workspace_leaked_after_successful_run :
    ((processJobs ⟨[⟨1, 7, 3, 4, "SUBMITTED"⟩], [], [], [], 0, [], [], []⟩
        ⟨none, "", none, "", false, []⟩).tmpDirs =
      ["/tmp/job-0", "/tmp/job-0/input-1", "/tmp/job-0/germline-2",
       "/tmp/job-0/output-3"]) ∧
    ((processJobs ⟨[⟨1, 7, 3, 4, "SUBMITTED"⟩], [], [], [], 0, [], [], []⟩
        ⟨none, "", none, "", false, []⟩).tmpDirs ≠ ([] : List String)) := by
  decide

/-- **C5 (amended).** For every pipeline run that claims a job, the
workspace root directory with its input, germline and output
subdirectories is created but never destroyed: on every exit path
(success and every failure) the four directories persist in the final
state, so temporary directories are leaked on each claimed run. -/
theorem workspace_dirs_persist (s : PState) (w : World) (n : JobRec)
    (hn : findOne (fun j => j.status = "SUBMITTED") s.jobs = some n) :
    (processJobs s w).tmpDirs = s.tmpDirs ++ workspaceDirs s.dirCounter ∧
    workspaceDirs s.dirCounter ≠ [] :=
  ⟨processJobs_tmpDirs s w n hn, by simp [workspaceDirs]⟩

/-- Witness for C5 (amended): a failing run on the one-job store still
leaves the four fresh directories behind. -/
theorem workspace_dirs_persist_witness :
    (findOne (fun j => j.status = "SUBMITTED") [⟨1, 7, 3, 4, "SUBMITTED"⟩] =
        some ⟨1, 7, 3, 4, "SUBMITTED"⟩) ∧
    ((processJobs ⟨[⟨1, 7, 3, 4, "SUBMITTED"⟩], [], [], ["/tmp/old"], 0, [], [], []⟩
        ⟨none, "", some "runner crashed", "", false, []⟩).tmpDirs =
      ["/tmp/old"] ++ workspaceDirs 0 ∧
     workspaceDirs 0 ≠ []) :=
  ⟨by decide,
   workspace_dirs_persist
     ⟨[⟨1, 7, 3, 4, "SUBMITTED"⟩], [], [], ["/tmp/old"], 0, [], [], []⟩
     ⟨none, "", some "runner crashed", "", false, []⟩
     ⟨1, 7, 3, 4, "SUBMITTED"⟩ (by decide)⟩

/-- **C7 (code_bug).** The claim — and every writer in the code — takes
the job status enumeration to be {SUBMITTED, PROCESSING, DONE, ERROR},
but `SequenceConfigs.jobStatusSteps`, the enum validating
`jobSchema.status`, is `['SUBMITTED', 'ERROR', 'IN PROGRESS', 'DONE']`:
it lists `IN PROGRESS` where the scheduler writes `PROCESSING`, so the
status the pipeline writes at claim time is not an admissible enum
value. -/
theorem processing_status_outside_enum :
    "PROCESSING" ∉ jobStatusSteps ∧
    "IN PROGRESS" ∈ jobStatusSteps ∧
    (processJobs ⟨[⟨1, 7, 3, 4, "SUBMITTED"⟩], [], [], [], 0, [], [], []⟩
        ⟨some "build failed", "", none, "", false, []⟩).jobs =
      [⟨1, 7, 3, 4, "PROCESSING"⟩] := by
  decide

/-- **C8 counterexample.** The claim says a run with exit code 0 is a
success and proceeds to ingestion and DONE even when the tool emitted
diagnostics to stderr.  With exit code 0 (`runError = none`), nonempty
stderr and a well-formed output file available, the run creates no
annotation and the job never reaches DONE. -/
theorem stderr_aborts_zero_exit_concrete :
    ((processJobs ⟨[⟨1, 7, 3, 4, "SUBMITTED"⟩], [], [], [], 0, [], [], []⟩
        ⟨none, "", none, "warning: diagnostics", false,
          [⟨"f.tsv", [⟨some "s1", some "IGH", some "V1", some "D1", some "J1", some "T",
            some "CAR"⟩]⟩]⟩).annotations = []) ∧
    ((processJobs ⟨[⟨1, 7, 3, 4, "SUBMITTED"⟩], [], [], [], 0, [], [], []⟩
        ⟨none, "", none, "warning: diagnostics", false,
          [⟨"f.tsv", [⟨some "s1", some "IGH", some "V1", some "D1", some "J1", some "T",
            some "CAR"⟩]⟩]⟩).jobs = [⟨1, 7, 3, 4, "PROCESSING"⟩]) := by
  decide

/-- **C8 (amended).** A container run is treated as a success only when
its exit code is 0 AND its captured stderr is empty: with exit code 0
but nonempty stderr, the callback returns early — no annotation is
created, the job store keeps only the PROCESSING claim write, and no job
reaches DONE that was not already DONE. -/
theorem run_success_requires_empty_stderr (s : PState) (w : World) (n : JobRec)
    (hn : findOne (fun j => j.status = "SUBMITTED") s.jobs = some n)
    (hb : w.buildError = none) (hbs : w.buildStderr = "")
    (hr : w.runError = none) (hrs : w.runStderr ≠ "") :
    (processJobs s w).annotations = s.annotations ∧
    (processJobs s w).jobs =
      (findOneAndUpdate (fun k => k.id = n.id) { n with status := "PROCESSING" } s.jobs).2 ∧
    ∀ j ∈ (processJobs s w).jobs, j.status = "DONE" → j ∈ s.jobs := by
  have hsh := processJobs_ran s w n hn hb hbs (Or.inr (Or.inl hrs))
  have hjobs : (processJobs s w).jobs =
      (findOneAndUpdate (fun k => k.id = n.id) { n with status := "PROCESSING" } s.jobs).2 := by
    simp [hsh, ranState_jobs, stagedState_jobs]
  refine ⟨by simp [hsh, ranState_annotations], hjobs, ?_⟩
  intro j hj hdone
  rw [hjobs] at hj
  rcases mem_findOneAndUpdate_snd hj with hmem | heq
  · exact hmem
  · exfalso
    have hps : j.status = "PROCESSING" := by rw [heq]
    rw [hps] at hdone
    exact absurd hdone (by decide)

/-- Witness for C8 (amended): zero exit code with nonempty stderr on the
one-job store. -/
theorem run_success_requires_empty_stderr_witness :
    (findOne (fun j => j.status = "SUBMITTED") [⟨1, 7, 3, 4, "SUBMITTED"⟩] =
        some ⟨1, 7, 3, 4, "SUBMITTED"⟩) ∧
    ("warning: diagnostics" ≠ "") ∧
    ((processJobs ⟨[⟨1, 7, 3, 4, "SUBMITTED"⟩], [], [], [], 0, [], [], []⟩
        ⟨none, "", none, "warning: diagnostics", false, []⟩).annotations = [] ∧
     (processJobs ⟨[⟨1, 7, 3, 4, "SUBMITTED"⟩], [], [], [], 0, [], [], []⟩
        ⟨none, "", none, "warning: diagnostics", false, []⟩).jobs =
       (findOneAndUpdate (fun k => k.id = 1) ⟨1, 7, 3, 4, "PROCESSING"⟩
         [⟨1, 7, 3, 4, "SUBMITTED"⟩]).2 ∧
     ∀ j ∈ (processJobs ⟨[⟨1, 7, 3, 4, "SUBMITTED"⟩], [], [], [], 0, [], [], []⟩
        ⟨none, "", none, "warning: diagnostics", false, []⟩).jobs,
       j.status = "DONE" → j ∈ [⟨1, 7, 3, 4, "SUBMITTED"⟩]) :=
  ⟨by decide, by decide,
   run_success_requires_empty_stderr
     ⟨[⟨1, 7, 3, 4, "SUBMITTED"⟩], [], [], [], 0, [], [], []⟩
     ⟨none, "", none, "warning: diagnostics", false, []⟩
     ⟨1, 7, 3, 4, "SUBMITTED"⟩ (by decide) rfl rfl rfl (by decide)⟩

end JobPipeline
